import Mathlib

-- Verification of the SWOT diagnostic rule engine (app.py):
-- the classifier swot_from_profile and the need deriver detect_needs,
-- together with the static catalogues they consult.

namespace App

-- ===== Catalogues and constants (app.py lines 21-67) =====

def SECTEURS : List String :=
  ["BTP", "Commerce", "Services", "Industrie", "Agricole", "Professions libérales",
   "E-commerce", "Santé", "Tech/SaaS", "Autre"]

def DIGITAL : List String :=
  ["Pas informatique", "Informatique rudimentaire", "Informatique avancée"]

def TAILLE : List String := ["0 salarié", "1-10", "11-49", "50-249", "250+"]

def IMPACT_ENV : List String := ["Faible/Non", "Moyenne", "Importante"]

def HORIZON_RETRAITE : List String := ["Loin (> 5 ans)", "À 5 ans", "< 2 ans"]

def EXPO_INTERNATIONAL : List String := ["Aucune", "Occasionnelle", "Régulière/Structurée"]

def DEPENDANCE_CLIENT : List String := ["Faible (<20%)", "Moyenne (20-40%)", "Forte (>40%)"]

-- Inline vocabularies of the input layer (app.py lines 311-312).
def CROISSANCE : List String := ["En baisse", "Stable", "En croissance"]

def MARGE : List String := ["Faible", "Correcte", "Confortable"]

-- Department key to display name table (app.py lines 29-39).
def SERVICES : List (String × String) :=
  [("social", "Service Paie & RH"),
   ("fiscal", "Pôle Fiscal"),
   ("patrimonial", "Pôle Conseil Patrimonial"),
   ("rse", "Pôle RSE / CSRD"),
   ("eco_strat", "Pôle Conseil Éco & Stratégie"),
   ("gestion", "Pôle Gestion / Contrôle de gestion"),
   ("digital", "Pôle Digitalisation"),
   ("international", "Pôle International"),
   ("btp", "Pôle Secteur BTP")]

-- Python dict indexing SERVICES[key]: none on a missing key (KeyError).
def servicesLookup (k : String) : Option String :=
  (SERVICES.find? (fun kv => kv.1 == k)).map (fun kv => kv.2)

def PRIORITES : List String := ["Haute", "Moyenne", "Basse"]

def ECHEANCES : List String := ["Immédiat (≤ 3 mois)", "6-12 mois", "> 12 mois"]

-- ===== Data models (app.py lines 73-104) =====

structure ClientProfile where
  nom : String
  secteur : String
  taille : String
  digital : String
  impact_env : String
  rse_sensible : Bool
  presence_cadres : Bool
  exposition_internationale : String
  dependance_client : String
  croissance : String
  marge : String
  tresorerie_tendue : Bool
  reporting_mensuel : Bool
  nb_banques : Int
  proche_retraite : String
  succession_envisagee : Bool
  patrimoine_dirigeant_important : Bool
  btp_specifique : Bool
  ecommerce_plateformes : Bool
  risques_juridiques : Bool
  notes : String
  deriving DecidableEq, Repr

-- A SWOT observation: the dicts built by strength/weakness/opportunity/threat.
structure Obs where
  type : String
  texte : String
  deriving DecidableEq, Repr

-- Helpers (app.py lines 110-120).
def strength (txt : String) : Obs := { type := "Force", texte := txt }

def weakness (txt : String) : Obs := { type := "Faiblesse", texte := txt }

def opportunity (txt : String) : Obs := { type := "Opportunité", texte := txt }

def threat (txt : String) : Obs := { type := "Menace", texte := txt }

-- The four fixed keys of the dict returned by swot_from_profile.
structure SWOT where
  Forces : List Obs
  Faiblesses : List Obs
  Opportunites : List Obs
  Menaces : List Obs
  deriving DecidableEq, Repr

structure Need where
  besoin : String
  service : String
  priorite : String
  echeance : String
  impact : Int
  justification : String
  deriving DecidableEq, Repr

-- ===== Substring containment, modelling the Python operator sub in s =====

def leadsList : List Char → List Char → Bool
  | [], _ => true
  | _ :: _, [] => false
  | a :: as, b :: bs => a == b && leadsList as bs

def subOfList (needle : List Char) : List Char → Bool
  | [] => leadsList needle []
  | b :: bs => leadsList needle (b :: bs) || subOfList needle bs

def pyIn (needle hay : String) : Bool := subOfList needle.toList hay.toList

-- ===== Classifier (app.py lines 122-174) =====
-- Each Python append-under-if becomes a singleton-or-empty block; sequential
-- appends into one category list become list concatenation, preserving order.

def swot_from_profile (p : ClientProfile) : SWOT :=
  { Forces :=
      (if p.digital == "Informatique avancée" then
        [strength "Digitalisation avancée (intégrations possibles)"] else []) ++
      (if p.reporting_mensuel then
        [strength "Reporting financier mensuel déjà en place"] else []) ++
      (if p.marge == "Confortable" then
        [strength "Marge confortable"] else []) ++
      (if p.croissance == "En croissance" then
        [strength "Croissance du CA"] else []),
    Faiblesses :=
      (if p.digital == "Pas informatique" then
        [weakness "Maturité digitale faible (risque d\x27erreurs/coûts)"] else []) ++
      (if !p.reporting_mensuel then
        [weakness "Absence de reporting/indicateurs réguliers"] else []) ++
      (if p.marge == "Faible" then
        [weakness "Marge insuffisante / prix de revient non maîtrisé"] else []) ++
      (if p.tresorerie_tendue then
        [weakness "Trésorerie tendue / pas de prévisionnel"] else []),
    Opportunites :=
      (if p.proche_retraite == "À 5 ans" || p.proche_retraite == "< 2 ans" then
        [opportunity "Préparer la transmission / retraite dirigeant"] else []) ++
      (if p.patrimoine_dirigeant_important then
        [opportunity "Optimisation patrimoniale (holding/SCI/PEA-PME, etc.)"] else []) ++
      (if p.rse_sensible then
        [opportunity "Valorisation via la démarche RSE / CSRD adaptée"] else []) ++
      (if p.exposition_internationale == "Occasionnelle" || p.exposition_internationale == "Régulière/Structurée" then
        [opportunity "Développement export / structuration internationale"] else []),
    Menaces :=
      (if p.impact_env == "Importante" then
        [threat "Exposition réglementaire environnementale élevée"] else []) ++
      (if p.dependance_client == "Forte (>40%)" then
        [threat "Dépendance à un client majeur"] else []) ++
      (if p.risques_juridiques then
        [threat "Litiges / risques juridiques non traités"] else []) ++
      (if (p.taille == "11-49" || p.taille == "50-249" || p.taille == "250+") && !p.presence_cadres then
        [threat "Obligations sociales renforcées sans structuration RH"] else []) ++
      (if p.secteur == "BTP" || p.btp_specifique then
        [threat "Complexité BTP (retenues, situations, DGD)"] else []) ++
      (if p.ecommerce_plateformes then
        [threat "TVA plateformes / marketplace (OSS/IOSS)"] else []) }

-- ===== Need deriver (app.py lines 176-248) =====

-- The add helper (app.py lines 179-187): builds a Need after resolving the
-- department key in SERVICES; a missing key is a KeyError, hence none.
def mkNeed (besoin service_key priorite echeance : String) (impact : Int)
    (justif : String) : Option Need :=
  (servicesLookup service_key).map (fun svc =>
    { besoin := besoin, service := svc, priorite := priorite,
      echeance := echeance, impact := impact, justification := justif })

-- The sequence of add calls performed by detect_needs, in source order, each
-- guarded by its rule condition (app.py lines 189-238).
def needRulesFired (p : ClientProfile) (swot : SWOT) : List (Option Need) :=
  let fb_texts := swot.Faiblesses.map (fun x => x.texte)
  let m_texts := swot.Menaces.map (fun x => x.texte)
  (if fb_texts.contains "Maturité digitale faible (risque d\x27erreurs/coûts)" then
    [mkNeed "Cartographie & plan de digitalisation" "digital" "Moyenne" "6-12 mois" 3
      "Digitalisation faible détectée"] else []) ++
  (if fb_texts.contains "Absence de reporting/indicateurs réguliers" then
    [mkNeed "Mise en place de tableaux de bord mensuels" "gestion" "Haute" "Immédiat (≤ 3 mois)" 4
      "Absence de pilotage mensuel"] else []) ++
  (if fb_texts.contains "Marge insuffisante / prix de revient non maîtrisé" then
    [mkNeed "Étude prix de revient & politique de pricing" "eco_strat" "Haute" "Immédiat (≤ 3 mois)" 5
      "Marge insuffisante"] else []) ++
  (if fb_texts.contains "Trésorerie tendue / pas de prévisionnel" then
    [mkNeed "Prévisionnel & cash management" "gestion" "Haute" "Immédiat (≤ 3 mois)" 5
      "Tension de trésorerie"] else []) ++
  (if m_texts.contains "Exposition réglementaire environnementale élevée" || p.rse_sensible then
    [mkNeed "Diagnostic RSE & plan d\x27actions" "rse" "Moyenne" "6-12 mois" 3
      "Enjeux RSE / environnementaux"] else []) ++
  (if m_texts.contains "Dépendance à un client majeur" then
    [mkNeed "Plan de diversification commerciale" "eco_strat" "Moyenne" "6-12 mois" 4
      "Risque de dépendance client"] else []) ++
  (if m_texts.contains "Complexité BTP (retenues, situations, DGD)" then
    [mkNeed "Mise en place suivi chantiers / DGD" "btp" "Moyenne" "6-12 mois" 3
      "Spécificités BTP"] else []) ++
  (if m_texts.contains "TVA plateformes / marketplace (OSS/IOSS)" then
    [mkNeed "Revue TVA (OSS/IOSS) & procédures" "international" "Haute" "Immédiat (≤ 3 mois)" 4
      "Risque TVA marketplaces"] else []) ++
  (if swot.Opportunites.any (fun x => pyIn "Préparer la transmission / retraite dirigeant" x.texte) then
    [mkNeed "Bilan retraite & pré-étude de transmission" "patrimonial" "Moyenne" "6-12 mois" 3
      "Fenêtre d\x27opportunité transmission"] else []) ++
  (if swot.Opportunites.any (fun x => pyIn "Optimisation patrimoniale" x.texte) then
    [mkNeed "Bilan patrimonial dirigeant" "patrimonial" "Moyenne" "6-12 mois" 3
      "Patrimoine dirigeant important"] else []) ++
  (if swot.Opportunites.any (fun x => pyIn "Développement export" x.texte) then
    [mkNeed "Diagnostic international (TVA / flux / implantations)" "international" "Moyenne" "6-12 mois" 3
      "Opportunité export"] else []) ++
  (if swot.Opportunites.any (fun x => pyIn "Valorisation via la démarche RSE" x.texte) then
    [mkNeed "Reporting extra-financier simplifié" "rse" "Basse" "> 12 mois" 2
      "Créer de la valeur via RSE"] else []) ++
  (if p.taille == "11-49" || p.taille == "50-249" || p.taille == "250+" then
    (if !p.presence_cadres then
      [mkNeed "Audit social & mise en conformité (CSE, DUERP...)" "social" "Haute" "Immédiat (≤ 3 mois)" 4
        "Obligations sociales renforcées"]
     else
      [mkNeed "Optimisation processus paie/RH" "social" "Moyenne" "6-12 mois" 3
        "Effectif significatif"]) else []) ++
  (if p.ecommerce_plateformes || (p.exposition_internationale == "Occasionnelle" || p.exposition_internationale == "Régulière/Structurée") then
    [mkNeed "Revue fiscale ciblée (TVA, prix de transfert simplifiés)" "fiscal" "Moyenne" "6-12 mois" 3
      "Flux e-commerce/internationaux"] else []) ++
  (if (decide (1 < p.nb_banques) && !p.reporting_mensuel) || p.tresorerie_tendue then
    [mkNeed "Centralisation banques & rapprochements automatiques" "digital" "Moyenne" "6-12 mois" 3
      "Multiples banques sans process outillé"] else []) ++
  (if (p.croissance == "En baisse" || p.croissance == "Stable") && !(p.marge == "Confortable") then
    [mkNeed "Diagnostic stratégique (marché/offre/organisation)" "eco_strat" "Moyenne" "6-12 mois" 4
      "Performance perfectible"] else [])

-- Key used by the deduplication step (app.py line 244).
def keyOf (n : Need) : String × String := (n.besoin, n.service)

-- Deduplication loop (app.py lines 240-248): keep the first occurrence of each
-- (besoin, service) key, preserving order; seen is the accumulated key set.
def dedupAux : List Need → List (String × String) → List Need
  | [], _ => []
  | n :: ns, seen =>
    if keyOf n ∈ seen then dedupAux ns seen
    else n :: dedupAux ns (keyOf n :: seen)

def dedupNeeds (l : List Need) : List Need := dedupAux l []

-- Collect the generated needs; a single failed department lookup makes the
-- whole run fail, as the first KeyError would abort detect_needs.
def allSome : List (Option Need) → Option (List Need)
  | [] => some []
  | none :: _ => none
  | some n :: rest => (allSome rest).map (fun l => n :: l)

def detect_needs (p : ClientProfile) (swot : SWOT) : Option (List Need) :=
  (allSome (needRulesFired p swot)).map dedupNeeds

-- ===== Spec-side artefacts =====
-- The following definitions follow the words of the specification, to be
-- compared with the code embedding above.

-- Spec section 4.1 describes the classifier as a fixed ordered list of
-- condition/observation rules, evaluated top to bottom; a category output is
-- the ordered list of texts of the satisfied rules.
def evalRules (rules : List (Bool × String)) : List String :=
  (rules.filter (fun r => r.1)).map (fun r => r.2)

-- Section 4.1 Strength rules, with the full observation strings of the code.
def rules41_S (p : ClientProfile) : List (Bool × String) :=
  [(p.digital == "Informatique avancée", "Digitalisation avancée (intégrations possibles)"),
   (p.reporting_mensuel, "Reporting financier mensuel déjà en place"),
   (p.marge == "Confortable", "Marge confortable"),
   (p.croissance == "En croissance", "Croissance du CA")]

def rules41_W (p : ClientProfile) : List (Bool × String) :=
  [(p.digital == "Pas informatique", "Maturité digitale faible (risque d\x27erreurs/coûts)"),
   (!p.reporting_mensuel, "Absence de reporting/indicateurs réguliers"),
   (p.marge == "Faible", "Marge insuffisante / prix de revient non maîtrisé"),
   (p.tresorerie_tendue, "Trésorerie tendue / pas de prévisionnel")]

def rules41_O (p : ClientProfile) : List (Bool × String) :=
  [(p.proche_retraite == "À 5 ans" || p.proche_retraite == "< 2 ans",
     "Préparer la transmission / retraite dirigeant"),
   (p.patrimoine_dirigeant_important, "Optimisation patrimoniale (holding/SCI/PEA-PME, etc.)"),
   (p.rse_sensible, "Valorisation via la démarche RSE / CSRD adaptée"),
   (p.exposition_internationale == "Occasionnelle" || p.exposition_internationale == "Régulière/Structurée",
     "Développement export / structuration internationale")]

def rules41_T (p : ClientProfile) : List (Bool × String) :=
  [(p.impact_env == "Importante", "Exposition réglementaire environnementale élevée"),
   (p.dependance_client == "Forte (>40%)", "Dépendance à un client majeur"),
   (p.risques_juridiques, "Litiges / risques juridiques non traités"),
   ((p.taille == "11-49" || p.taille == "50-249" || p.taille == "250+") && !p.presence_cadres,
     "Obligations sociales renforcées sans structuration RH"),
   (p.secteur == "BTP" || p.btp_specifique, "Complexité BTP (retenues, situations, DGD)"),
   (p.ecommerce_plateformes, "TVA plateformes / marketplace (OSS/IOSS)")]

-- Section 4.1 Strength rules with the observation texts exactly as quoted in
-- the spec rule set; used to state the literal reading of claim C1.
def rules41_S_lit (p : ClientProfile) : List (Bool × String) :=
  [(p.digital == "Informatique avancée", "Digitalisation avancée"),
   (p.reporting_mensuel, "Reporting mensuel en place"),
   (p.marge == "Confortable", "Marge confortable"),
   (p.croissance == "En croissance", "Croissance du CA")]

-- Section 3 enumerations of the Need record, and their realisations as the
-- fixed strings used by the code.
inductive Priority where
  | High
  | Medium
  | Low
  deriving DecidableEq, Repr

def prioStr : Priority → String
  | .High => "Haute"
  | .Medium => "Moyenne"
  | .Low => "Basse"

inductive Deadline where
  | Immediate
  | SixToTwelve
  | OverTwelve
  deriving DecidableEq, Repr

def echStr : Deadline → String
  | .Immediate => "Immédiat (≤ 3 mois)"
  | .SixToTwelve => "6-12 mois"
  | .OverTwelve => "> 12 mois"

-- One row of the section 4.2 rule table: a condition plus the fixed
-- description, department key, priority, deadline bucket, impact and
-- rationale literals.
structure NeedRow where
  cond : Bool
  besoin : String
  dept : String
  prio : Priority
  ech : Deadline
  impact : Int
  justif : String
  deriving Repr

-- A row resolved through the department lookup, as the deriver does it.
def rowNeed (r : NeedRow) : Option Need :=
  (servicesLookup r.dept).map (fun svc =>
    { besoin := r.besoin, service := svc, priorite := prioStr r.prio,
      echeance := echStr r.ech, impact := r.impact, justification := r.justif })

-- Total variant of row resolution, meaningful whenever the key is present.
def rowNeedD (r : NeedRow) : Need :=
  { besoin := r.besoin, service := (servicesLookup r.dept).getD "",
    priorite := prioStr r.prio, echeance := echStr r.ech,
    impact := r.impact, justification := r.justif }

-- Spec evaluation of an ordered rule table: satisfied rows, in table order.
def rowsEval (rows : List NeedRow) : List (Option Need) :=
  (rows.filter (fun r => r.cond)).map rowNeed

-- The section 4.2 rule table, rows in the declared spec order.
def needTable42 (p : ClientProfile) (swot : SWOT) : List NeedRow :=
  [{ cond := (swot.Faiblesses.map (fun x => x.texte)).contains "Maturité digitale faible (risque d\x27erreurs/coûts)",
     besoin := "Cartographie & plan de digitalisation", dept := "digital",
     prio := .Medium, ech := .SixToTwelve, impact := 3, justif := "Digitalisation faible détectée" },
   { cond := (swot.Faiblesses.map (fun x => x.texte)).contains "Absence de reporting/indicateurs réguliers",
     besoin := "Mise en place de tableaux de bord mensuels", dept := "gestion",
     prio := .High, ech := .Immediate, impact := 4, justif := "Absence de pilotage mensuel" },
   { cond := (swot.Faiblesses.map (fun x => x.texte)).contains "Marge insuffisante / prix de revient non maîtrisé",
     besoin := "Étude prix de revient & politique de pricing", dept := "eco_strat",
     prio := .High, ech := .Immediate, impact := 5, justif := "Marge insuffisante" },
   { cond := (swot.Faiblesses.map (fun x => x.texte)).contains "Trésorerie tendue / pas de prévisionnel",
     besoin := "Prévisionnel & cash management", dept := "gestion",
     prio := .High, ech := .Immediate, impact := 5, justif := "Tension de trésorerie" },
   { cond := (swot.Menaces.map (fun x => x.texte)).contains "Exposition réglementaire environnementale élevée" || p.rse_sensible,
     besoin := "Diagnostic RSE & plan d\x27actions", dept := "rse",
     prio := .Medium, ech := .SixToTwelve, impact := 3, justif := "Enjeux RSE / environnementaux" },
   { cond := (swot.Menaces.map (fun x => x.texte)).contains "Dépendance à un client majeur",
     besoin := "Plan de diversification commerciale", dept := "eco_strat",
     prio := .Medium, ech := .SixToTwelve, impact := 4, justif := "Risque de dépendance client" },
   { cond := (swot.Menaces.map (fun x => x.texte)).contains "Complexité BTP (retenues, situations, DGD)",
     besoin := "Mise en place suivi chantiers / DGD", dept := "btp",
     prio := .Medium, ech := .SixToTwelve, impact := 3, justif := "Spécificités BTP" },
   { cond := (swot.Menaces.map (fun x => x.texte)).contains "TVA plateformes / marketplace (OSS/IOSS)",
     besoin := "Revue TVA (OSS/IOSS) & procédures", dept := "international",
     prio := .High, ech := .Immediate, impact := 4, justif := "Risque TVA marketplaces" },
   { cond := swot.Opportunites.any (fun x => pyIn "Préparer la transmission / retraite dirigeant" x.texte),
     besoin := "Bilan retraite & pré-étude de transmission", dept := "patrimonial",
     prio := .Medium, ech := .SixToTwelve, impact := 3, justif := "Fenêtre d\x27opportunité transmission" },
   { cond := swot.Opportunites.any (fun x => pyIn "Optimisation patrimoniale" x.texte),
     besoin := "Bilan patrimonial dirigeant", dept := "patrimonial",
     prio := .Medium, ech := .SixToTwelve, impact := 3, justif := "Patrimoine dirigeant important" },
   { cond := swot.Opportunites.any (fun x => pyIn "Développement export" x.texte),
     besoin := "Diagnostic international (TVA / flux / implantations)", dept := "international",
     prio := .Medium, ech := .SixToTwelve, impact := 3, justif := "Opportunité export" },
   { cond := swot.Opportunites.any (fun x => pyIn "Valorisation via la démarche RSE" x.texte),
     besoin := "Reporting extra-financier simplifié", dept := "rse",
     prio := .Low, ech := .OverTwelve, impact := 2, justif := "Créer de la valeur via RSE" },
   { cond := (p.taille == "11-49" || p.taille == "50-249" || p.taille == "250+") && !p.presence_cadres,
     besoin := "Audit social & mise en conformité (CSE, DUERP...)", dept := "social",
     prio := .High, ech := .Immediate, impact := 4, justif := "Obligations sociales renforcées" },
   { cond := (p.taille == "11-49" || p.taille == "50-249" || p.taille == "250+") && p.presence_cadres,
     besoin := "Optimisation processus paie/RH", dept := "social",
     prio := .Medium, ech := .SixToTwelve, impact := 3, justif := "Effectif significatif" },
   { cond := p.ecommerce_plateformes || (p.exposition_internationale == "Occasionnelle" || p.exposition_internationale == "Régulière/Structurée"),
     besoin := "Revue fiscale ciblée (TVA, prix de transfert simplifiés)", dept := "fiscal",
     prio := .Medium, ech := .SixToTwelve, impact := 3, justif := "Flux e-commerce/internationaux" },
   { cond := (decide (1 < p.nb_banques) && !p.reporting_mensuel) || p.tresorerie_tendue,
     besoin := "Centralisation banques & rapprochements automatiques", dept := "digital",
     prio := .Medium, ech := .SixToTwelve, impact := 3, justif := "Multiples banques sans process outillé" },
   { cond := (p.croissance == "En baisse" || p.croissance == "Stable") && !(p.marge == "Confortable"),
     besoin := "Diagnostic stratégique (marché/offre/organisation)", dept := "eco_strat",
     prio := .Medium, ech := .SixToTwelve, impact := 4, justif := "Performance perfectible" }]

-- The pre-deduplication need list described by the spec: the satisfied rows of
-- the table, resolved, in table order.
def rawNeeds (p : ClientProfile) (swot : SWOT) : List Need :=
  ((needTable42 p swot).filter (fun r => r.cond)).map rowNeedD

-- The seventeen Needs of the section 4.2 table, with departments resolved.
def tableNeeds : List Need :=
  [{ besoin := "Cartographie & plan de digitalisation", service := "Pôle Digitalisation",
     priorite := "Moyenne", echeance := "6-12 mois", impact := 3,
     justification := "Digitalisation faible détectée" },
   { besoin := "Mise en place de tableaux de bord mensuels", service := "Pôle Gestion / Contrôle de gestion",
     priorite := "Haute", echeance := "Immédiat (≤ 3 mois)", impact := 4,
     justification := "Absence de pilotage mensuel" },
   { besoin := "Étude prix de revient & politique de pricing", service := "Pôle Conseil Éco & Stratégie",
     priorite := "Haute", echeance := "Immédiat (≤ 3 mois)", impact := 5,
     justification := "Marge insuffisante" },
   { besoin := "Prévisionnel & cash management", service := "Pôle Gestion / Contrôle de gestion",
     priorite := "Haute", echeance := "Immédiat (≤ 3 mois)", impact := 5,
     justification := "Tension de trésorerie" },
   { besoin := "Diagnostic RSE & plan d\x27actions", service := "Pôle RSE / CSRD",
     priorite := "Moyenne", echeance := "6-12 mois", impact := 3,
     justification := "Enjeux RSE / environnementaux" },
   { besoin := "Plan de diversification commerciale", service := "Pôle Conseil Éco & Stratégie",
     priorite := "Moyenne", echeance := "6-12 mois", impact := 4,
     justification := "Risque de dépendance client" },
   { besoin := "Mise en place suivi chantiers / DGD", service := "Pôle Secteur BTP",
     priorite := "Moyenne", echeance := "6-12 mois", impact := 3,
     justification := "Spécificités BTP" },
   { besoin := "Revue TVA (OSS/IOSS) & procédures", service := "Pôle International",
     priorite := "Haute", echeance := "Immédiat (≤ 3 mois)", impact := 4,
     justification := "Risque TVA marketplaces" },
   { besoin := "Bilan retraite & pré-étude de transmission", service := "Pôle Conseil Patrimonial",
     priorite := "Moyenne", echeance := "6-12 mois", impact := 3,
     justification := "Fenêtre d\x27opportunité transmission" },
   { besoin := "Bilan patrimonial dirigeant", service := "Pôle Conseil Patrimonial",
     priorite := "Moyenne", echeance := "6-12 mois", impact := 3,
     justification := "Patrimoine dirigeant important" },
   { besoin := "Diagnostic international (TVA / flux / implantations)", service := "Pôle International",
     priorite := "Moyenne", echeance := "6-12 mois", impact := 3,
     justification := "Opportunité export" },
   { besoin := "Reporting extra-financier simplifié", service := "Pôle RSE / CSRD",
     priorite := "Basse", echeance := "> 12 mois", impact := 2,
     justification := "Créer de la valeur via RSE" },
   { besoin := "Audit social & mise en conformité (CSE, DUERP...)", service := "Service Paie & RH",
     priorite := "Haute", echeance := "Immédiat (≤ 3 mois)", impact := 4,
     justification := "Obligations sociales renforcées" },
   { besoin := "Optimisation processus paie/RH", service := "Service Paie & RH",
     priorite := "Moyenne", echeance := "6-12 mois", impact := 3,
     justification := "Effectif significatif" },
   { besoin := "Revue fiscale ciblée (TVA, prix de transfert simplifiés)", service := "Pôle Fiscal",
     priorite := "Moyenne", echeance := "6-12 mois", impact := 3,
     justification := "Flux e-commerce/internationaux" },
   { besoin := "Centralisation banques & rapprochements automatiques", service := "Pôle Digitalisation",
     priorite := "Moyenne", echeance := "6-12 mois", impact := 3,
     justification := "Multiples banques sans process outillé" },
   { besoin := "Diagnostic stratégique (marché/offre/organisation)", service := "Pôle Conseil Éco & Stratégie",
     priorite := "Moyenne", echeance := "6-12 mois", impact := 4,
     justification := "Performance perfectible" }]

-- Well-formed profile as stated in sections 3 and 7: every enum field in its
-- closed vocabulary, bank count a non-negative integer.
def WellFormedProfile (p : ClientProfile) : Prop :=
  p.secteur ∈ SECTEURS ∧ p.taille ∈ TAILLE ∧ p.digital ∈ DIGITAL ∧
  p.impact_env ∈ IMPACT_ENV ∧ p.exposition_internationale ∈ EXPO_INTERNATIONAL ∧
  p.dependance_client ∈ DEPENDANCE_CLIENT ∧ p.croissance ∈ CROISSANCE ∧
  p.marge ∈ MARGE ∧ p.proche_retraite ∈ HORIZON_RETRAITE ∧ 0 ≤ p.nb_banques

-- ===== Concrete profiles and needs for the scenario claims =====

-- Scenario 1 profile: digital maturity none, no monthly reporting, low
-- margin, strained cash flow, all other fields at the neutral defaults of the
-- input layer.
def profile1 : ClientProfile :=
  { nom := "Client DEMO", secteur := "Services", taille := "1-10",
    digital := "Pas informatique", impact_env := "Faible/Non",
    rse_sensible := false, presence_cadres := false,
    exposition_internationale := "Aucune", dependance_client := "Faible (<20%)",
    croissance := "Stable", marge := "Faible", tresorerie_tendue := true,
    reporting_mensuel := false, nb_banques := 1,
    proche_retraite := "Loin (> 5 ans)", succession_envisagee := false,
    patrimoine_dirigeant_important := false, btp_specifique := false,
    ecommerce_plateformes := false, risques_juridiques := false, notes := "" }

-- Scenario 2 profile: size band 50-249, unstructured HR, all other fields at
-- the neutral defaults of the input layer.
def profile2 : ClientProfile :=
  { nom := "Client DEMO", secteur := "Services", taille := "50-249",
    digital := "Informatique rudimentaire", impact_env := "Faible/Non",
    rse_sensible := false, presence_cadres := false,
    exposition_internationale := "Aucune", dependance_client := "Faible (<20%)",
    croissance := "Stable", marge := "Correcte", tresorerie_tendue := false,
    reporting_mensuel := false, nb_banques := 1,
    proche_retraite := "Loin (> 5 ans)", succession_envisagee := false,
    patrimoine_dirigeant_important := false, btp_specifique := false,
    ecommerce_plateformes := false, risques_juridiques := false, notes := "" }

-- Profile with advanced digital maturity, used against the literal reading of
-- claim C1.
def profileAdv : ClientProfile :=
  { nom := "Client DEMO", secteur := "Services", taille := "1-10",
    digital := "Informatique avancée", impact_env := "Faible/Non",
    rse_sensible := false, presence_cadres := false,
    exposition_internationale := "Aucune", dependance_client := "Faible (<20%)",
    croissance := "Stable", marge := "Confortable", tresorerie_tendue := false,
    reporting_mensuel := true, nb_banques := 1,
    proche_retraite := "Loin (> 5 ans)", succession_envisagee := false,
    patrimoine_dirigeant_important := false, btp_specifique := false,
    ecommerce_plateformes := false, risques_juridiques := false, notes := "" }

def needDigitalPlan : Need :=
  { besoin := "Cartographie & plan de digitalisation", service := "Pôle Digitalisation",
    priorite := "Moyenne", echeance := "6-12 mois", impact := 3,
    justification := "Digitalisation faible détectée" }

def needDashboards : Need :=
  { besoin := "Mise en place de tableaux de bord mensuels",
    service := "Pôle Gestion / Contrôle de gestion", priorite := "Haute",
    echeance := "Immédiat (≤ 3 mois)", impact := 4,
    justification := "Absence de pilotage mensuel" }

def needPricing : Need :=
  { besoin := "Étude prix de revient & politique de pricing",
    service := "Pôle Conseil Éco & Stratégie", priorite := "Haute",
    echeance := "Immédiat (≤ 3 mois)", impact := 5,
    justification := "Marge insuffisante" }

def needCash : Need :=
  { besoin := "Prévisionnel & cash management",
    service := "Pôle Gestion / Contrôle de gestion", priorite := "Haute",
    echeance := "Immédiat (≤ 3 mois)", impact := 5,
    justification := "Tension de trésorerie" }

def needBanks : Need :=
  { besoin := "Centralisation banques & rapprochements automatiques",
    service := "Pôle Digitalisation", priorite := "Moyenne",
    echeance := "6-12 mois", impact := 3,
    justification := "Multiples banques sans process outillé" }

def needStratDiag : Need :=
  { besoin := "Diagnostic stratégique (marché/offre/organisation)",
    service := "Pôle Conseil Éco & Stratégie", priorite := "Moyenne",
    echeance := "6-12 mois", impact := 4,
    justification := "Performance perfectible" }

def needAuditSocial : Need :=
  { besoin := "Audit social & mise en conformité (CSE, DUERP...)",
    service := "Service Paie & RH", priorite := "Haute",
    echeance := "Immédiat (≤ 3 mois)", impact := 4,
    justification := "Obligations sociales renforcées" }

-- The pre-deduplication list produced for profile1.
def scenario1Raw : List Need :=
  [needDigitalPlan, needDashboards, needPricing, needCash, needBanks, needStratDiag]

-- The need list produced for profile2.
def scenario2Needs : List Need :=
  [needDashboards, needAuditSocial, needStratDiag]

-- ===== General lemmas =====

theorem evalRules_nil : evalRules [] = [] := rfl

theorem evalRules_cons (c : Bool) (t : String) (l : List (Bool × String)) :
    evalRules ((c, t) :: l) = (if c then [t] else []) ++ evalRules l := by
  cases c <;> simp [evalRules]

theorem rowsEval_nil : rowsEval [] = [] := rfl

theorem rowsEval_cons (r : NeedRow) (l : List NeedRow) :
    rowsEval (r :: l) = (if r.cond then [rowNeed r] else []) ++ rowsEval l := by
  cases hr : r.cond <;> simp [rowsEval, List.filter_cons, hr]

theorem map_ite_singleton {α β : Type} (f : α → β) (c : Bool) (x : α) :
    List.map f (if c then [x] else []) = (if c then [f x] else []) := by
  cases c <;> simp

-- ===== C1: the classifier against the section 4.1 rule list =====

/-- C1 (amended form): for every profile, the classifier evaluates exactly the
fixed ordered rule list of spec section 4.1, category by category in the order
Strengths, Weaknesses, Opportunities, Threats and, inside a category, in the
declared rule order; each category sequence equals the ordered texts of the
satisfied rules, so every satisfied rule appends its (full, code-level)
observation text exactly once and no rule disables another. -/
theorem claim1_rule_list (p : ClientProfile) :
    (swot_from_profile p).Forces.map (fun x => x.texte) = evalRules (rules41_S p) ∧
    (swot_from_profile p).Faiblesses.map (fun x => x.texte) = evalRules (rules41_W p) ∧
    (swot_from_profile p).Opportunites.map (fun x => x.texte) = evalRules (rules41_O p) ∧
    (swot_from_profile p).Menaces.map (fun x => x.texte) = evalRules (rules41_T p) := by
  refine ⟨?_, ?_, ?_, ?_⟩ <;>
    simp only [swot_from_profile, rules41_S, rules41_W, rules41_O, rules41_T,
      evalRules_cons, evalRules_nil, List.append_nil, List.map_append,
      map_ite_singleton, List.append_assoc, strength, weakness, opportunity, threat]

/-- C1, counterexample to the literal reading: with the observation texts
exactly as quoted in the spec rule set, the classifier output differs at a
concrete profile; the code appends longer strings of which the spec texts are
abbreviations. -/
theorem claim1_counterexample :
    (swot_from_profile profileAdv).Forces.map (fun x => x.texte) ≠
      evalRules (rules41_S_lit profileAdv) := by decide

/-- C1, witness at a concrete profile. -/
theorem claim1_witness :
    (swot_from_profile profileAdv).Forces.map (fun x => x.texte) = evalRules (rules41_S profileAdv) ∧
    (swot_from_profile profileAdv).Faiblesses.map (fun x => x.texte) = evalRules (rules41_W profileAdv) ∧
    (swot_from_profile profileAdv).Opportunites.map (fun x => x.texte) = evalRules (rules41_O profileAdv) ∧
    (swot_from_profile profileAdv).Menaces.map (fun x => x.texte) = evalRules (rules41_T profileAdv) :=
  claim1_rule_list profileAdv

-- ===== C2: the need deriver against the section 4.2 rule table =====

theorem needRulesFired_eq_table (p : ClientProfile) (s : SWOT) :
    needRulesFired p s = rowsEval (needTable42 p s) := by
  cases hT : (p.taille == "11-49" || p.taille == "50-249" || p.taille == "250+") <;>
    cases hC : p.presence_cadres <;>
      (simp only [needRulesFired, needTable42, rowsEval_cons, rowsEval_nil,
        List.append_nil, List.append_assoc, hT, hC]; rfl)

theorem tableKeysValid (p : ClientProfile) (s : SWOT) :
    ∀ r ∈ needTable42 p s, (servicesLookup r.dept).isSome = true := by
  intro r hr
  simp only [needTable42, List.mem_cons, List.not_mem_nil, or_false] at hr
  rcases hr with rfl | rfl | rfl | rfl | rfl | rfl | rfl | rfl | rfl | rfl | rfl | rfl | rfl
    | rfl | rfl | rfl | rfl <;> rfl

theorem allSome_map_rowNeed (rows : List NeedRow)
    (h : ∀ r ∈ rows, (servicesLookup r.dept).isSome = true) :
    allSome (rows.map rowNeed) = some (rows.map rowNeedD) := by
  induction rows with
  | nil => rfl
  | cons r rest ih =>
    obtain ⟨v, hv⟩ := Option.isSome_iff_exists.mp (h r (List.mem_cons_self r rest))
    have hrow : rowNeed r = some (rowNeedD r) := by
      simp [rowNeed, rowNeedD, hv]
    have ih2 := ih (fun x hx => h x (List.mem_cons_of_mem r hx))
    simp [hrow, allSome, ih2]

theorem rawNeeds_eq (p : ClientProfile) (s : SWOT) :
    allSome (needRulesFired p s) = some (rawNeeds p s) := by
  rw [needRulesFired_eq_table]
  exact allSome_map_rowNeed _ (fun r hr => tableKeysValid p s r (List.mem_of_mem_filter hr))

theorem detect_needs_eq (p : ClientProfile) (s : SWOT) :
    detect_needs p s = some (dedupNeeds (rawNeeds p s)) := by
  rw [detect_needs, rawNeeds_eq, Option.map_some']

/-- C2: for every profile and SWOT classification, the sequence of Need
constructions performed by the deriver equals the top-to-bottom evaluation of
the fixed section 4.2 rule table: each matching row appends exactly one Need
carrying the fixed description, department (resolved display name), priority,
deadline bucket, impact and rationale literals of that row, and the
pre-deduplication output order is the rule evaluation order. -/
theorem claim2_need_table (p : ClientProfile) (s : SWOT) :
    needRulesFired p s = rowsEval (needTable42 p s) ∧
    allSome (needRulesFired p s) = some (rawNeeds p s) :=
  ⟨needRulesFired_eq_table p s, rawNeeds_eq p s⟩

/-- C2, witness at a concrete profile. -/
theorem claim2_witness :
    needRulesFired profile1 (swot_from_profile profile1) =
      rowsEval (needTable42 profile1 (swot_from_profile profile1)) ∧
    allSome (needRulesFired profile1 (swot_from_profile profile1)) =
      some (rawNeeds profile1 (swot_from_profile profile1)) :=
  claim2_need_table profile1 (swot_from_profile profile1)

-- ===== C5: totality on well-formed profiles =====

/-- C5: for every well-formed profile, the classifier and the need deriver are
total: every department-key lookup performed while generating needs succeeds
(every rule uses a key present in the static services table), and the deriver
returns a need list rather than failing. -/
theorem claim5_totality (p : ClientProfile) (_h : WellFormedProfile p) :
    (∀ o ∈ needRulesFired p (swot_from_profile p), o.isSome = true) ∧
    (∃ ns, detect_needs p (swot_from_profile p) = some ns) := by
  refine ⟨?_, dedupNeeds (rawNeeds p (swot_from_profile p)), detect_needs_eq p _⟩
  intro o ho
  rw [needRulesFired_eq_table] at ho
  obtain ⟨r, hr, rfl⟩ := List.mem_map.mp ho
  obtain ⟨v, hv⟩ := Option.isSome_iff_exists.mp
    (tableKeysValid p _ r (List.mem_of_mem_filter hr))
  simp [rowNeed, hv]

/-- C5, witness at a concrete well-formed profile. -/
theorem claim5_witness :
    (∀ o ∈ needRulesFired profile1 (swot_from_profile profile1), o.isSome = true) ∧
    (∃ ns, detect_needs profile1 (swot_from_profile profile1) = some ns) :=
  claim5_totality profile1 (by unfold WellFormedProfile; decide)

-- ===== Deduplication lemmas (app.py lines 240-248) =====

theorem dedupAux_sublist : ∀ (l : List Need) (seen : List (String × String)),
    (dedupAux l seen).Sublist l := by
  intro l
  induction l with
  | nil => intro seen; simp [dedupAux]
  | cons n ns ih =>
    intro seen
    by_cases h : keyOf n ∈ seen
    · simp only [dedupAux]
      rw [if_pos h]
      exact (ih seen).cons n
    · simp only [dedupAux]
      rw [if_neg h]
      exact (ih _).cons₂ n

theorem dedupAux_key_notin : ∀ (l : List Need) (seen : List (String × String)) (n : Need),
    n ∈ dedupAux l seen → keyOf n ∉ seen := by
  intro l
  induction l with
  | nil => intro seen n hn; simp [dedupAux] at hn
  | cons m ms ih =>
    intro seen n hn
    by_cases h : keyOf m ∈ seen
    · simp only [dedupAux] at hn
      rw [if_pos h] at hn
      exact ih seen n hn
    · simp only [dedupAux] at hn
      rw [if_neg h] at hn
      rcases List.mem_cons.mp hn with rfl | hn2
      · exact h
      · intro hk
        exact ih _ n hn2 (List.mem_cons_of_mem _ hk)

theorem dedupAux_pairwise : ∀ (l : List Need) (seen : List (String × String)),
    (dedupAux l seen).Pairwise (fun a b => keyOf a ≠ keyOf b) := by
  intro l
  induction l with
  | nil => intro seen; simp [dedupAux]
  | cons m ms ih =>
    intro seen
    by_cases h : keyOf m ∈ seen
    · simp only [dedupAux]
      rw [if_pos h]
      exact ih seen
    · simp only [dedupAux]
      rw [if_neg h]
      refine List.Pairwise.cons ?_ (ih _)
      intro b hb heq
      exact dedupAux_key_notin ms _ b hb (heq ▸ List.mem_cons_self _ _)

theorem dedupAux_find : ∀ (l : List Need) (seen : List (String × String))
    (k : String × String), k ∉ seen →
    (dedupAux l seen).find? (fun n => decide (keyOf n = k)) =
      l.find? (fun n => decide (keyOf n = k)) := by
  intro l
  induction l with
  | nil => intro seen k hk; rfl
  | cons m ms ih =>
    intro seen k hk
    by_cases h : keyOf m ∈ seen
    · have hne : ¬ (keyOf m = k) := fun he => hk (he ▸ h)
      simp only [dedupAux]
      rw [if_pos h, List.find?_cons_of_neg _ (by simpa using hne)]
      exact ih seen k hk
    · by_cases he : keyOf m = k
      · simp only [dedupAux]
        rw [if_neg h, List.find?_cons_of_pos _ (by simpa using he),
          List.find?_cons_of_pos _ (by simpa using he)]
      · simp only [dedupAux]
        rw [if_neg h, List.find?_cons_of_neg _ (by simpa using he),
          List.find?_cons_of_neg _ (by simpa using he)]
        refine ih _ k ?_
        intro hk2
        rcases List.mem_cons.mp hk2 with h1 | h2
        · exact he h1.symm
        · exact hk h2

theorem dedupAux_eq_self : ∀ (l : List Need) (seen : List (String × String)),
    (∀ n ∈ l, keyOf n ∉ seen) → l.Pairwise (fun a b => keyOf a ≠ keyOf b) →
    dedupAux l seen = l := by
  intro l
  induction l with
  | nil => intro seen _ _; rfl
  | cons m ms ih =>
    intro seen hseen hpw
    have h : keyOf m ∉ seen := hseen m (List.mem_cons_self _ _)
    simp only [dedupAux]
    rw [if_neg h]
    rcases List.pairwise_cons.mp hpw with ⟨hm, hpw2⟩
    congr 1
    refine ih _ ?_ hpw2
    intro n hn hk
    rcases List.mem_cons.mp hk with h1 | h2
    · exact hm n hn h1.symm
    · exact hseen n (List.mem_cons_of_mem _ hn) h2

theorem dedupNeeds_eq_self (l : List Need)
    (h : l.Pairwise (fun a b => keyOf a ≠ keyOf b)) : dedupNeeds l = l :=
  dedupAux_eq_self l [] (fun n _ => List.not_mem_nil (keyOf n)) h


-- ===== C3: the deduplication step =====

/-- C3: for every profile, deduplication collapses entries of the generated
list with identical description and department, keeps only the first
occurrence of each key (the first match for any key is unchanged), preserves
first-seen order (the result is a sublist), and the returned sequence contains
no two Needs with the same key pair. -/
theorem claim3_dedup (p : ClientProfile) (raw : List Need)
    (h : allSome (needRulesFired p (swot_from_profile p)) = some raw) :
    (dedupNeeds raw).Sublist raw ∧
    (dedupNeeds raw).Pairwise (fun a b => keyOf a ≠ keyOf b) ∧
    (∀ k, (dedupNeeds raw).find? (fun n => decide (keyOf n = k)) =
      raw.find? (fun n => decide (keyOf n = k))) ∧
    detect_needs p (swot_from_profile p) = some (dedupNeeds raw) := by
  refine ⟨dedupAux_sublist raw [], dedupAux_pairwise raw [],
    fun k => dedupAux_find raw [] k (List.not_mem_nil k), ?_⟩
  rw [detect_needs, h, Option.map_some']

/-- C3, witness at a concrete profile. -/
theorem claim3_witness :
    (dedupNeeds scenario1Raw).Sublist scenario1Raw ∧
    (dedupNeeds scenario1Raw).Pairwise (fun a b => keyOf a ≠ keyOf b) ∧
    (∀ k, (dedupNeeds scenario1Raw).find? (fun n => decide (keyOf n = k)) =
      scenario1Raw.find? (fun n => decide (keyOf n = k))) ∧
    detect_needs profile1 (swot_from_profile profile1) = some (dedupNeeds scenario1Raw) :=
  claim3_dedup profile1 scenario1Raw (by decide)

-- ===== C4: determinism =====

/-- C4: both core functions are deterministic: two runs on equal profiles
yield identical classifications and identical need sequences. -/
theorem claim4_deterministic (p q : ClientProfile) (h : p = q) :
    swot_from_profile p = swot_from_profile q ∧
    detect_needs p (swot_from_profile p) = detect_needs q (swot_from_profile q) := by
  subst h
  exact ⟨rfl, rfl⟩

/-- C4, witness at a concrete profile. -/
theorem claim4_witness :
    swot_from_profile profile1 = swot_from_profile profile1 ∧
    detect_needs profile1 (swot_from_profile profile1) =
      detect_needs profile1 (swot_from_profile profile1) :=
  claim4_deterministic profile1 profile1 rfl

-- ===== C6: output invariants =====

theorem map_rowNeedD_table (p : ClientProfile) (s : SWOT) :
    (needTable42 p s).map rowNeedD = tableNeeds := rfl

theorem tableNeeds_valid :
    ∀ n ∈ tableNeeds, n.service ∈ SERVICES.map (fun kv => kv.2) ∧
      n.priorite ∈ PRIORITES ∧ n.echeance ∈ ECHEANCES ∧
      1 ≤ n.impact ∧ n.impact ≤ 5 := by decide

/-- C6: for every profile, every Need returned by the deriver carries one of
the fixed department display names, a priority among the three fixed priority
strings, a deadline among the three fixed buckets, and an impact between 1 and
5 inclusive. -/
theorem claim6_need_invariants (p : ClientProfile) (ns : List Need)
    (h : detect_needs p (swot_from_profile p) = some ns) :
    ∀ n ∈ ns, n.service ∈ SERVICES.map (fun kv => kv.2) ∧
      n.priorite ∈ PRIORITES ∧ n.echeance ∈ ECHEANCES ∧
      1 ≤ n.impact ∧ n.impact ≤ 5 := by
  intro n hn
  have hd := detect_needs_eq p (swot_from_profile p)
  rw [h] at hd
  obtain rfl := Option.some.inj hd
  have hn2 : n ∈ rawNeeds p (swot_from_profile p) := (dedupAux_sublist _ []).subset hn
  rw [rawNeeds] at hn2
  obtain ⟨r, hr, rfl⟩ := List.mem_map.mp hn2
  refine tableNeeds_valid (rowNeedD r) ?_
  rw [← map_rowNeedD_table p (swot_from_profile p)]
  exact List.mem_map_of_mem rowNeedD (List.mem_of_mem_filter hr)

/-- C6, witness at a concrete profile and need. -/
theorem claim6_witness :
    needPricing.service ∈ SERVICES.map (fun kv => kv.2) ∧
    needPricing.priorite ∈ PRIORITES ∧ needPricing.echeance ∈ ECHEANCES ∧
    1 ≤ needPricing.impact ∧ needPricing.impact ≤ 5 :=
  claim6_need_invariants profile1 scenario1Raw (by decide) needPricing (by decide)

-- ===== C7 and C8: scenarios =====

/-- C7, scenario 1: for the profile with digital maturity none, no monthly
reporting, low margin and strained cash flow, the Weaknesses sequence holds
exactly the four expected observations, and the need list contains the
digital-plan, dashboards, pricing-study and cash-management needs, the last
two both priority Haute, deadline Immédiat, impact 5, with pricing-study
before cash-management in the pre-deduplication evaluation order. -/
theorem claim7_scenario1 :
    (swot_from_profile profile1).Faiblesses.map (fun x => x.texte) =
      ["Maturité digitale faible (risque d\x27erreurs/coûts)",
       "Absence de reporting/indicateurs réguliers",
       "Marge insuffisante / prix de revient non maîtrisé",
       "Trésorerie tendue / pas de prévisionnel"] ∧
    allSome (needRulesFired profile1 (swot_from_profile profile1)) = some scenario1Raw ∧
    detect_needs profile1 (swot_from_profile profile1) = some scenario1Raw ∧
    needDigitalPlan ∈ scenario1Raw ∧ needDashboards ∈ scenario1Raw ∧
    needPricing ∈ scenario1Raw ∧ needCash ∈ scenario1Raw ∧
    needPricing.priorite = "Haute" ∧ needPricing.echeance = "Immédiat (≤ 3 mois)" ∧
    needPricing.impact = 5 ∧
    needCash.priorite = "Haute" ∧ needCash.echeance = "Immédiat (≤ 3 mois)" ∧
    needCash.impact = 5 ∧
    scenario1Raw.indexOf needPricing < scenario1Raw.indexOf needCash := by decide

/-- C8, scenario 2: for the profile with size band 50-249 and unstructured
HR, the Threats sequence holds the reinforced social obligations observation,
and the need list contains exactly one need routed to the social department:
the social-audit need, priority Haute, deadline Immédiat, impact 4. -/
theorem claim8_scenario2 :
    "Obligations sociales renforcées sans structuration RH" ∈
      (swot_from_profile profile2).Menaces.map (fun x => x.texte) ∧
    detect_needs profile2 (swot_from_profile profile2) = some scenario2Needs ∧
    scenario2Needs.filter (fun n => n.service == "Service Paie & RH") = [needAuditSocial] ∧
    needAuditSocial.service = "Service Paie & RH" ∧ needAuditSocial.priorite = "Haute" ∧
    needAuditSocial.echeance = "Immédiat (≤ 3 mois)" ∧ needAuditSocial.impact = 4 := by decide

-- ===== C9: idempotence of deduplication =====

/-- C9: the deduplication filter is idempotent: applying the first-occurrence
filter twice yields the same list as applying it once. -/
theorem claim9_dedup_idempotent (l : List Need) :
    dedupNeeds (dedupNeeds l) = dedupNeeds l :=
  dedupAux_eq_self _ [] (fun n _ => List.not_mem_nil (keyOf n)) (dedupAux_pairwise l [])

/-- C9, witness at a concrete list. -/
theorem claim9_witness :
    dedupNeeds (dedupNeeds scenario1Raw) = dedupNeeds scenario1Raw :=
  claim9_dedup_idempotent scenario1Raw

-- ===== C10: the generated list never holds duplicate keys =====

theorem tableBesoins_pairwise (p : ClientProfile) (s : SWOT) :
    (needTable42 p s).Pairwise (fun a b => a.besoin ≠ b.besoin) := by
  have h : ((needTable42 p s).map (fun r => r.besoin)).Pairwise (fun a b => a ≠ b) := by
    rw [show (needTable42 p s).map (fun r => r.besoin) =
      ["Cartographie & plan de digitalisation",
       "Mise en place de tableaux de bord mensuels",
       "Étude prix de revient & politique de pricing",
       "Prévisionnel & cash management",
       "Diagnostic RSE & plan d\x27actions",
       "Plan de diversification commerciale",
       "Mise en place suivi chantiers / DGD",
       "Revue TVA (OSS/IOSS) & procédures",
       "Bilan retraite & pré-étude de transmission",
       "Bilan patrimonial dirigeant",
       "Diagnostic international (TVA / flux / implantations)",
       "Reporting extra-financier simplifié",
       "Audit social & mise en conformité (CSE, DUERP...)",
       "Optimisation processus paie/RH",
       "Revue fiscale ciblée (TVA, prix de transfert simplifiés)",
       "Centralisation banques & rapprochements automatiques",
       "Diagnostic stratégique (marché/offre/organisation)"] from rfl]
    decide
  exact List.pairwise_map.mp h

theorem rawNeeds_pairwise (p : ClientProfile) (s : SWOT) :
    (rawNeeds p s).Pairwise (fun a b => keyOf a ≠ keyOf b) := by
  rw [rawNeeds]
  refine List.pairwise_map.mpr ?_
  have h2 : ((needTable42 p s).filter (fun r => r.cond)).Pairwise
      (fun a b => a.besoin ≠ b.besoin) :=
    List.Pairwise.sublist (List.filter_sublist _) (tableBesoins_pairwise p s)
  refine h2.imp ?_
  intro a b hab hk
  exact hab (congrArg Prod.fst hk)

/-- C10 (implicit): for every profile and classification, the generated need
list already contains no two Needs with the same description and department
pair before deduplication, since every rule appends a distinct description,
and the deriver with the deduplication filter equals the deriver without
it. -/
theorem claim10_no_predup_duplicates (p : ClientProfile) (s : SWOT) :
    detect_needs p s = allSome (needRulesFired p s) ∧
    (∀ raw, allSome (needRulesFired p s) = some raw →
      raw.Pairwise (fun a b => keyOf a ≠ keyOf b)) := by
  constructor
  · rw [detect_needs, rawNeeds_eq p s, Option.map_some',
      dedupNeeds_eq_self _ (rawNeeds_pairwise p s)]
  · intro raw hraw
    rw [rawNeeds_eq p s] at hraw
    obtain rfl := Option.some.inj hraw
    exact rawNeeds_pairwise p s

/-- C10, witness at a concrete profile. -/
theorem claim10_witness :
    detect_needs profile1 (swot_from_profile profile1) =
      allSome (needRulesFired profile1 (swot_from_profile profile1)) ∧
    scenario1Raw.Pairwise (fun a b => keyOf a ≠ keyOf b) :=
  ⟨(claim10_no_predup_duplicates profile1 (swot_from_profile profile1)).1,
   (claim10_no_predup_duplicates profile1 (swot_from_profile profile1)).2 scenario1Raw (by decide)⟩

end App
